import Mathlib

/-!
Verification of the furyctl pre-flight state-diff and immutability-enforcement
subsystem.

The orchestrator (`PreFlight.Exec` and `PreFlight.CheckStateDiffs` in
`internal/apis/kfd/v1alpha2/eks/create/preflight.go`) and the configuration
parser (`internal/configuration/config.go`) are embedded from the source.
The diff engine (`internal/diff`), the rules builder
(`internal/apis/kfd/v1alpha2/eks/rules`) and the state store are external to
the provided sources; they are modelled from the specification, as noted on
each definition.
-/

namespace Furyctl

/-- Modelled from the spec: a ConfigTree node — an arbitrarily nested structure
of mappings (string keys), sequences and scalar leaf values (string, number,
boolean, null), mirroring Go's `map[string]any` payloads. -/
inductive Value where
  | vmap (entries : List (String × Value))
  | vseq (items : List Value)
  | vstr (s : String)
  | vint (n : Int)
  | vbool (b : Bool)
  | vnull
deriving Inhabited

/-- An entry of a mapping node: a string key paired with a value. -/
abbrev Entry := String × Value

/-- Modelled from the spec: a ConfigTree is mapping-rooted, as in the Go code
where both stored and incoming configurations are `map[string]any`. -/
abbrev ConfigTree := List Entry

/-- A segment of a path into a ConfigTree: a mapping key or a sequence index. -/
inductive Seg where
  | key (s : String)
  | idx (n : Nat)
deriving DecidableEq, Inhabited

/-- A path into a ConfigTree: a sequence of segments. -/
abbrev DiffPath := List Seg

/-- The kind of a detected difference. -/
inductive DiffKind where
  | added
  | removed
  | changed
deriving DecidableEq, Inhabited

/-- Modelled from the spec: one detected difference between two ConfigTrees,
carrying the path, the optional old and new values, and the kind. -/
structure DiffRecord where
  path : DiffPath
  oldValue : Option Value
  newValue : Option Value
  kind : DiffKind

/-- Structural (deep) boolean equality on values, used for leaf comparison. -/
def beqValue : Value → Value → Bool
  | .vmap a, .vmap b => beqEntries a b
  | .vseq a, .vseq b => beqItems a b
  | .vstr a, .vstr b => a == b
  | .vint a, .vint b => a == b
  | .vbool a, .vbool b => a == b
  | .vnull, .vnull => true
  | _, _ => false
where
  /-- Deep equality of entry lists. -/
  beqEntries : List Entry → List Entry → Bool
    | [], [] => true
    | (k, v) :: t, (k', v') :: t' => k == k' && beqValue v v' && beqEntries t t'
    | _, _ => false
  /-- Deep equality of item lists. -/
  beqItems : List Value → List Value → Bool
    | [], [] => true
    | v :: t, v' :: t' => beqValue v v' && beqItems t t'
    | _, _ => false

mutual

theorem beqValue_iff : ∀ a b : Value, beqValue a b = true ↔ a = b
  | .vmap a, .vmap b => by
      simp only [beqValue, Value.vmap.injEq]
      exact beqEntries_iff a b
  | .vseq a, .vseq b => by
      simp only [beqValue, Value.vseq.injEq]
      exact beqItems_iff a b
  | .vstr a, .vstr b => by simp [beqValue]
  | .vint a, .vint b => by simp [beqValue]
  | .vbool a, .vbool b => by simp [beqValue]
  | .vnull, .vnull => by simp [beqValue]
  | .vmap _, .vseq _ => by simp [beqValue]
  | .vmap _, .vstr _ => by simp [beqValue]
  | .vmap _, .vint _ => by simp [beqValue]
  | .vmap _, .vbool _ => by simp [beqValue]
  | .vmap _, .vnull => by simp [beqValue]
  | .vseq _, .vmap _ => by simp [beqValue]
  | .vseq _, .vstr _ => by simp [beqValue]
  | .vseq _, .vint _ => by simp [beqValue]
  | .vseq _, .vbool _ => by simp [beqValue]
  | .vseq _, .vnull => by simp [beqValue]
  | .vstr _, .vmap _ => by simp [beqValue]
  | .vstr _, .vseq _ => by simp [beqValue]
  | .vstr _, .vint _ => by simp [beqValue]
  | .vstr _, .vbool _ => by simp [beqValue]
  | .vstr _, .vnull => by simp [beqValue]
  | .vint _, .vmap _ => by simp [beqValue]
  | .vint _, .vseq _ => by simp [beqValue]
  | .vint _, .vstr _ => by simp [beqValue]
  | .vint _, .vbool _ => by simp [beqValue]
  | .vint _, .vnull => by simp [beqValue]
  | .vbool _, .vmap _ => by simp [beqValue]
  | .vbool _, .vseq _ => by simp [beqValue]
  | .vbool _, .vstr _ => by simp [beqValue]
  | .vbool _, .vint _ => by simp [beqValue]
  | .vbool _, .vnull => by simp [beqValue]
  | .vnull, .vmap _ => by simp [beqValue]
  | .vnull, .vseq _ => by simp [beqValue]
  | .vnull, .vstr _ => by simp [beqValue]
  | .vnull, .vint _ => by simp [beqValue]
  | .vnull, .vbool _ => by simp [beqValue]

theorem beqEntries_iff : ∀ a b : List Entry, beqValue.beqEntries a b = true ↔ a = b
  | [], [] => by simp [beqValue.beqEntries]
  | (k, v) :: t, (k', v') :: t' => by
      simp only [beqValue.beqEntries, Bool.and_eq_true, List.cons.injEq, Prod.mk.injEq,
        beq_iff_eq, beqValue_iff v v', beqEntries_iff t t']
  | [], _ :: _ => by simp [beqValue.beqEntries]
  | _ :: _, [] => by simp [beqValue.beqEntries]

theorem beqItems_iff : ∀ a b : List Value, beqValue.beqItems a b = true ↔ a = b
  | [], [] => by simp [beqValue.beqItems]
  | v :: t, v' :: t' => by
      simp only [beqValue.beqItems, Bool.and_eq_true, List.cons.injEq]
      rw [beqValue_iff v v', beqItems_iff t t']
  | [], _ :: _ => by simp [beqValue.beqItems]
  | _ :: _, [] => by simp [beqValue.beqItems]

end

instance : DecidableEq Value := fun a b => decidable_of_iff _ (beqValue_iff a b)

/-- Insert an entry into a list of entries kept sorted by key. -/
def insertEntry (e : Entry) : List Entry → List Entry
  | [] => [e]
  | e' :: t => if e.1 ≤ e'.1 then e :: e' :: t else e' :: insertEntry e t

/-- Sort a mapping's entries by key (insertion sort), giving the diff engine
its stable lexicographic key order. -/
def sortEntries : List Entry → List Entry
  | [] => []
  | e :: t => insertEntry e (sortEntries t)

theorem sizeOf_insertEntry (e : Entry) : ∀ l : List Entry,
    sizeOf (insertEntry e l) = 1 + sizeOf e + sizeOf l
  | [] => by simp [insertEntry]
  | e' :: t => by
      by_cases h : e.1 ≤ e'.1
      · simp [insertEntry, h]
        try omega
      · simp [insertEntry, h, sizeOf_insertEntry e t]
        try omega

theorem sizeOf_sortEntries : ∀ l : List Entry, sizeOf (sortEntries l) = sizeOf l
  | [] => rfl
  | e :: t => by simp [sortEntries, sizeOf_insertEntry, sizeOf_sortEntries t]

theorem perm_insertEntry (e : Entry) : ∀ l : List Entry, List.Perm (insertEntry e l) (e :: l)
  | [] => List.Perm.refl _
  | e' :: t => by
      by_cases h : e.1 ≤ e'.1
      · simp [insertEntry, h]
      · simp only [insertEntry, h, if_false]
        exact ((perm_insertEntry e t).cons e').trans (List.Perm.swap e e' t)

theorem perm_sortEntries : ∀ l : List Entry, List.Perm (sortEntries l) l
  | [] => List.Perm.refl _
  | e :: t => (perm_insertEntry e (sortEntries t)).trans ((perm_sortEntries t).cons e)

/-- The key order used to sort mapping entries. -/
def keyLE (p q : Entry) : Prop := p.1 ≤ q.1

theorem pairwise_insertEntry (e : Entry) : ∀ l : List Entry,
    l.Pairwise keyLE → (insertEntry e l).Pairwise keyLE
  | [], _ => by simp [insertEntry, keyLE]
  | e' :: t, h => by
      rcases List.pairwise_cons.mp h with ⟨he', ht⟩
      by_cases hle : e.1 ≤ e'.1
      · simp only [insertEntry, hle, if_true]
        refine List.pairwise_cons.mpr ⟨?_, h⟩
        intro x hx
        rcases List.mem_cons.mp hx with rfl | hx
        · exact hle
        · exact le_trans hle (he' x hx)
      · simp only [insertEntry, hle, if_false]
        refine List.pairwise_cons.mpr ⟨?_, pairwise_insertEntry e t ht⟩
        intro x hx
        rcases List.mem_cons.mp ((perm_insertEntry e t).mem_iff.mp hx) with rfl | hx
        · exact le_of_not_le hle
        · exact he' x hx

theorem pairwise_sortEntries : ∀ l : List Entry, (sortEntries l).Pairwise keyLE
  | [] => List.Pairwise.nil
  | e :: t => pairwise_insertEntry e (sortEntries t) (pairwise_sortEntries t)

mutual

/-- Modelled from the spec: structural lockstep diff of two values at a given
path. Mapping nodes are compared over the union of their key sets in sorted
key order; sequence nodes are compared index-positionally; any other
combination is a leaf comparison emitting a Changed record when the two
sides differ under deep equality. -/
def diffValue (path : DiffPath) (stored incoming : Value) : List DiffRecord :=
  match stored, incoming with
  | .vmap a, .vmap b => diffEntries path (sortEntries a) (sortEntries b)
  | .vseq a, .vseq b => diffItems path 0 a b
  | x, y => if beqValue x y then [] else [⟨path, some x, some y, .changed⟩]
termination_by sizeOf stored + sizeOf incoming
decreasing_by all_goals (simp_wf; (try simp only [sizeOf_sortEntries]); omega)

/-- Modelled from the spec: merge-walk of two key-sorted entry lists. A key
present on one side only yields a single Added/Removed record summarizing the
whole subtree; a key present on both sides recurses. -/
def diffEntries (path : DiffPath) (stored incoming : List Entry) : List DiffRecord :=
  match stored, incoming with
  | [], [] => []
  | (k, v) :: t, [] =>
      ⟨path ++ [.key k], some v, none, .removed⟩ :: diffEntries path t []
  | [], (k, v) :: t =>
      ⟨path ++ [.key k], none, some v, .added⟩ :: diffEntries path [] t
  | (k1, v1) :: t1, (k2, v2) :: t2 =>
      if k1 < k2 then
        ⟨path ++ [.key k1], some v1, none, .removed⟩ :: diffEntries path t1 ((k2, v2) :: t2)
      else if k2 < k1 then
        ⟨path ++ [.key k2], none, some v2, .added⟩ :: diffEntries path ((k1, v1) :: t1) t2
      else
        diffValue (path ++ [.key k1]) v1 v2 ++ diffEntries path t1 t2
termination_by sizeOf stored + sizeOf incoming
decreasing_by all_goals (simp_wf; try omega)

/-- Modelled from the spec: index-positional comparison of two sequences;
trailing extra elements on either side are Removed/Added. -/
def diffItems (path : DiffPath) (i : Nat) (stored incoming : List Value) : List DiffRecord :=
  match stored, incoming with
  | [], [] => []
  | v :: t, [] => ⟨path ++ [.idx i], some v, none, .removed⟩ :: diffItems path (i + 1) t []
  | [], v :: t => ⟨path ++ [.idx i], none, some v, .added⟩ :: diffItems path (i + 1) [] t
  | v1 :: t1, v2 :: t2 =>
      diffValue (path ++ [.idx i]) v1 v2 ++ diffItems path (i + 1) t1 t2
termination_by sizeOf stored + sizeOf incoming
decreasing_by all_goals (simp_wf; try omega)

end

/-- Modelled from the spec: `GenerateDiff` compares the stored and incoming
mapping-rooted configuration trees and returns the ordered list of
changed-path records, processing keys in sorted order at every level. In the
Go code both roots are `map[string]any`, so the structural-error branch for a
non-mapping root cannot arise and the function is total here. -/
def GenerateDiff (stored incoming : ConfigTree) : List DiffRecord :=
  diffEntries [] (sortEntries stored) (sortEntries incoming)

mutual

theorem diffValue_self : ∀ (path : DiffPath) (v : Value), diffValue path v v = []
  | path, .vmap a => by
      simp only [diffValue]
      exact diffEntries_self path (sortEntries a)
  | path, .vseq a => by
      simp only [diffValue]
      exact diffItems_self path 0 a
  | _, .vstr s => by simp [diffValue, beqValue]
  | _, .vint n => by simp [diffValue, beqValue]
  | _, .vbool b => by simp [diffValue, beqValue]
  | _, .vnull => by simp [diffValue, beqValue]
termination_by _ v => sizeOf v
decreasing_by all_goals (simp_wf; (try simp only [sizeOf_sortEntries]); try omega)

theorem diffEntries_self : ∀ (path : DiffPath) (l : List Entry), diffEntries path l l = []
  | _, [] => by simp [diffEntries]
  | path, (k, v) :: t => by
      simp only [diffEntries, lt_irrefl, if_false]
      rw [diffValue_self (path ++ [Seg.key k]) v, diffEntries_self path t]
      rfl
termination_by _ l => sizeOf l
decreasing_by all_goals (simp_wf; try omega)

theorem diffItems_self : ∀ (path : DiffPath) (i : Nat) (l : List Value), diffItems path i l l = []
  | _, _, [] => by simp [diffItems]
  | path, i, v :: t => by
      simp only [diffItems]
      rw [diffValue_self (path ++ [Seg.idx i]) v, diffItems_self path (i + 1) t]
      rfl
termination_by _ _ l => sizeOf l
decreasing_by all_goals (simp_wf; try omega)

end

/-- A segment of an immutable-path pattern: a literal key, a literal index, or
a wildcard index segment matching any index. -/
inductive PatSeg where
  | key (s : String)
  | idx (n : Nat)
  | anyIdx
deriving DecidableEq, Inhabited

/-- Modelled from the spec: an immutable-path pattern, a sequence of pattern
segments supporting prefix matching with wildcard array indices. -/
abbrev PathPattern := List PatSeg

/-- Whether one pattern segment matches one path segment. -/
def matchSeg : PatSeg → Seg → Bool
  | .key s, .key s' => s == s'
  | .idx n, .idx n' => n == n'
  | .anyIdx, .idx _ => true
  | _, _ => false

/-- Modelled from the spec: a pattern matches a path when the pattern's
segment sequence is a segment-wise prefix of the path (so the path is equal
to, or a descendant of, the declared immutable path), with wildcard index
segments matching any index. -/
def matchesPattern : PathPattern → DiffPath → Bool
  | [], _ => true
  | _ :: _, [] => false
  | ps :: pt, s :: t => matchSeg ps s && matchesPattern pt t

/-- Modelled from the spec: one immutability violation, carrying the offending
path and both values for operator-facing reporting. -/
structure ViolationError where
  path : DiffPath
  oldValue : Option Value
  newValue : Option Value

/-- Modelled from the spec: `AssertImmutableViolations` matches every
DiffRecord's path against every pattern; each match yields exactly one
ViolationError, all matches are collected (no short-circuit) and no error is
raised when there are no violations. -/
def AssertImmutableViolations (diffs : List DiffRecord) (immutablePaths : List PathPattern) :
    List ViolationError :=
  diffs.flatMap fun d =>
    (immutablePaths.filter fun pat => matchesPattern pat d.path).map fun _ =>
      ⟨d.path, d.oldValue, d.newValue⟩

/-- Modelled from the spec: the rule source — a read-only mapping from
category name to the set of path patterns declared immutable, loaded once by
the rules builder. -/
structure RuleSource where
  immutables : List (String × List PathPattern)

/-- Look up the patterns declared for a category name. -/
def lookupCategory (category : String) : List (String × List PathPattern) → Option (List PathPattern)
  | [] => none
  | (c, pats) :: t => if c = category then some pats else lookupCategory category t

/-- Modelled from the spec: `GetImmutables` is a pure lookup; an unknown
category returns the empty set of patterns, never an error. -/
def RuleSource.GetImmutables (r : RuleSource) (category : String) : List PathPattern :=
  (lookupCategory category r.immutables).getD []

/-- Errors as propagated by the Go orchestrator: a plain message, a message
wrapping a cause (`fmt.Errorf` with `%w`), or the immutable-paths error
wrapping the whole list of collected violations. -/
inductive GoError where
  | msg (s : String)
  | wrap (ctx : String) (e : GoError)
  | immutable (violations : List ViolationError)

/-- The externally observable steps of the pre-flight orchestrator, recorded
in order of invocation. -/
inductive Step where
  | createFolder
  | copyFromTemplate
  | createFolderStructure
  | tfInit
  | stateShow
  | kubeVersion
  | getConfig
  | unmarshalStored
  | readNewConfig
  | generateDiff
  | rulesBuilder
  | assertImmutable (category : String)
deriving DecidableEq

/-- Outcomes of the external collaborators used by `CheckStateDiffs`: the
state store read, the YAML decoding of the stored and of the incoming
configuration, and the rules-builder construction. -/
structure StateDiffsDeps where
  getConfig : Except GoError String
  unmarshalStored : String → Except GoError ConfigTree
  readNewConfig : Except GoError ConfigTree
  rulesBuilder : Except GoError RuleSource

/-- Embeds `PreFlight.CheckStateDiffs` (preflight.go lines 186-229): load the
stored config from the state store, unmarshal it, read the incoming config
file, generate the diff, build the rules source, run the immutability checker
once per category ("infrastructure", "kubernetes", "distribution"), and fail
with one error wrapping all collected violations when any exist. The second
component records the steps performed, in order. -/
def CheckStateDiffs (d : StateDiffsDeps) : Except GoError Unit × List Step :=
  match d.getConfig with
  | .error e =>
      (.error (.wrap "error while getting current cluster config" e), [.getConfig])
  | .ok storedStr =>
    match d.unmarshalStored storedStr with
    | .error e =>
        (.error (.wrap "error while unmarshalling config file" e),
          [.getConfig, .unmarshalStored])
    | .ok storedCfg =>
      match d.readNewConfig with
      | .error e =>
          (.error (.wrap "error while reading config file" e),
            [.getConfig, .unmarshalStored, .readNewConfig])
      | .ok newCfg =>
        let diffs := GenerateDiff storedCfg newCfg
        match d.rulesBuilder with
        | .error e =>
            (.error (.wrap "error while creating rules builder" e),
              [.getConfig, .unmarshalStored, .readNewConfig, .generateDiff, .rulesBuilder])
        | .ok r =>
          let errs :=
            AssertImmutableViolations diffs (r.GetImmutables "infrastructure") ++
            AssertImmutableViolations diffs (r.GetImmutables "kubernetes") ++
            AssertImmutableViolations diffs (r.GetImmutables "distribution")
          let trace :=
            [.getConfig, .unmarshalStored, .readNewConfig, .generateDiff, .rulesBuilder,
             .assertImmutable "infrastructure", .assertImmutable "kubernetes",
             .assertImmutable "distribution"]
          if errs.isEmpty then (.ok (), trace) else (.error (.immutable errs), trace)

/-- Outcomes of the external collaborators used by `PreFlight.Exec`: phase
folder creation, template copying, folder structure creation, terraform init,
the terraform `state show data.aws_eks_cluster.fury` call, the kubectl
version (reachability) call, and the collaborators of `CheckStateDiffs`. -/
structure ExecDeps where
  createFolder : Except GoError Unit
  copyFromTemplate : Except GoError Unit
  createFolderStructure : Except GoError Unit
  tfInit : Except GoError Unit
  stateShow : Except GoError String
  kubeVersion : Except GoError String
  stateDiffs : StateDiffsDeps

/-- Embeds `PreFlight.Exec` (preflight.go lines 92-132): create the phase
folder, copy the templates, create the folder structure, run terraform init;
if the terraform state-show call fails the function returns success at once
(first-ever apply fast path); otherwise it checks cluster reachability (fatal
on failure) and then the state diffs. The second component records the steps
performed, in order. -/
def Exec (d : ExecDeps) : Except GoError Unit × List Step :=
  match d.createFolder with
  | .error e => (.error (.wrap "error creating preflight phase folder" e), [.createFolder])
  | .ok _ =>
    match d.copyFromTemplate with
    | .error e => (.error e, [.createFolder, .copyFromTemplate])
    | .ok _ =>
      match d.createFolderStructure with
      | .error e =>
          (.error (.wrap "error creating preflight phase folder structure" e),
            [.createFolder, .copyFromTemplate, .createFolderStructure])
      | .ok _ =>
        match d.tfInit with
        | .error e =>
            (.error (.wrap "error running terraform init" e),
              [.createFolder, .copyFromTemplate, .createFolderStructure, .tfInit])
        | .ok _ =>
          match d.stateShow with
          | .error _ =>
              (.ok (),
                [.createFolder, .copyFromTemplate, .createFolderStructure, .tfInit, .stateShow])
          | .ok _ =>
            match d.kubeVersion with
            | .error e =>
                (.error (.wrap "cluster is unreachable, make sure you have access to the cluster" e),
                  [.createFolder, .copyFromTemplate, .createFolderStructure, .tfInit, .stateShow,
                   .kubeVersion])
            | .ok _ =>
              match CheckStateDiffs d.stateDiffs with
              | (.error e, sub) =>
                  (.error (.wrap "error checking state diffs" e),
                    [.createFolder, .copyFromTemplate, .createFolderStructure, .tfInit, .stateShow,
                     .kubeVersion] ++ sub)
              | (.ok _, sub) =>
                  (.ok (),
                    [.createFolder, .copyFromTemplate, .createFolderStructure, .tfInit, .stateShow,
                     .kubeVersion] ++ sub)

/-- A dynamically-typed Go value as produced by `yaml.Unmarshal` into an
`interface{}` field: the nil interface (field absent from the YAML), a
`map[interface{}]interface{}`, or a scalar/sequence. -/
inductive GoVal where
  | vnil
  | vmapII (entries : List (GoVal × GoVal))
  | vstr (s : String)
  | vint (n : Int)
  | vbool (b : Bool)
  | vseq (items : List GoVal)

/-- Embeds the `Configuration` struct of `internal/configuration/config.go`
after `yaml.Unmarshal`: the `Kind`, the dynamically-typed `Spec`, and the
`Provisioner` field filled in by the parsers. The `Metadata` and `Executor`
fields play no role in the parsing control flow and are omitted. -/
structure Configuration where
  kind : String
  spec : GoVal
  provisioner : String

/-- The outcome of running the configuration parser: a parsed configuration,
a returned error, or a Go runtime panic. -/
inductive ParseOutcome where
  | ok (c : Configuration)
  | err (s : String)
  | panics (s : String)

/-- The unchecked Go type assertion `config.Spec.(map[interface{}]interface{})`:
succeeds only when the value is a `map[interface{}]interface{}`. -/
def typeAssertMapII : GoVal → Option (List (GoVal × GoVal))
  | .vmapII entries => some entries
  | _ => none

/-- Whether a dynamically-typed map key equals the given string. -/
def isStrKey (v : GoVal) (k : String) : Bool :=
  match v with
  | .vstr s => s == k
  | _ => false

/-- Go map indexing `m["provisioner"]` on a `map[interface{}]interface{}`:
returns the value, or the zero value (nil interface) when absent. -/
def lookupII (k : String) : List (GoVal × GoVal) → GoVal
  | [] => .vnil
  | (k', v) :: t => if isStrKey k' k then v else lookupII k t

/-- Outcomes of the external YAML calls made inside `clusterParser` and
`bootstrapParser`: `yaml.Marshal(config.Spec)` and the `yaml.Unmarshal` of
those bytes into the provisioner-specific spec struct. -/
structure ParserDeps where
  marshalSpec : Except String Unit
  unmarshalSpec : Except String Unit

/-- Embeds `clusterParser` (config.go lines 79-102): the unchecked type
assertion on `config.Spec` at line 80 panics when the spec is absent (nil
interface) or not a mapping; otherwise the provisioner key is looked up, the
spec is re-marshalled, and only the "aws-simple" provisioner is accepted. The
replacement of `config.Spec` by the typed spec struct is abstracted, being
external YAML decoding. -/
def clusterParser (dep : ParserDeps) (config : Configuration) : ParseOutcome :=
  match typeAssertMapII config.spec with
  | none => .panics "interface conversion"
  | some entries =>
    let provisioner := lookupII "provisioner" entries
    match dep.marshalSpec with
    | .error e => .err e
    | .ok _ =>
      if isStrKey provisioner "aws-simple" then
        match dep.unmarshalSpec with
        | .error e => .err e
        | .ok _ => .ok { config with provisioner := "aws-simple" }
      else .err "Cluster provisioner not found"

/-- Embeds `bootstrapParser` (config.go lines 104-137): same unchecked type
assertion on `config.Spec` at line 105, then acceptance of the "dummy" and
"aws" provisioners only. -/
def bootstrapParser (dep : ParserDeps) (config : Configuration) : ParseOutcome :=
  match typeAssertMapII config.spec with
  | none => .panics "interface conversion"
  | some entries =>
    let provisioner := lookupII "provisioner" entries
    match dep.marshalSpec with
    | .error e => .err e
    | .ok _ =>
      if isStrKey provisioner "dummy" then
        match dep.unmarshalSpec with
        | .error e => .err e
        | .ok _ => .ok { config with provisioner := "dummy" }
      else if isStrKey provisioner "aws" then
        match dep.unmarshalSpec with
        | .error e => .err e
        | .ok _ => .ok { config with provisioner := "aws" }
      else .err "Bootstrap provisioner not found"

/-- Outcomes of the external calls made by `configuration.Parse`: the
configuration file read and the top-level `yaml.Unmarshal` into the base
`Configuration` struct. -/
structure ParseDeps where
  readFile : Except String Unit
  unmarshalConfig : Except String Configuration
  parser : ParserDeps

/-- Embeds `configuration.Parse` (config.go lines 47-77): read the file,
unmarshal the base configuration, then dispatch on `Kind` to `clusterParser`
or `bootstrapParser`; an unknown kind is a returned error. -/
def Parse (dep : ParseDeps) : ParseOutcome :=
  match dep.readFile with
  | .error e => .err e
  | .ok _ =>
    match dep.unmarshalConfig with
    | .error e => .err e
    | .ok baseConfig =>
      if baseConfig.kind = "Cluster" then clusterParser dep.parser baseConfig
      else if baseConfig.kind = "Bootstrap" then bootstrapParser dep.parser baseConfig
      else .err "Parser not found for kind"

/-- The strict key order on entries, used to show sorted entry lists with
distinct keys are unique in their permutation class. -/
def keyLT (p q : Entry) : Prop := p.1 < q.1

instance : IsAntisymm Entry keyLT :=
  ⟨fun _ _ h1 h2 => absurd h2 (not_lt.mpr (le_of_lt h1))⟩

theorem pairwise_keyLT {l : List Entry} (h : l.Pairwise keyLE)
    (hn : (l.map Prod.fst).Nodup) : l.Pairwise keyLT := by
  have hn' : l.Pairwise fun a b => a.1 ≠ b.1 := List.pairwise_map.mp hn
  exact (h.and hn').imp fun hab => lt_of_le_of_ne hab.1 hab.2

theorem sortEntries_eq_of_perm {l1 l2 : List Entry} (hp : List.Perm l1 l2)
    (hn : (l1.map Prod.fst).Nodup) : sortEntries l1 = sortEntries l2 := by
  have hperm : List.Perm (sortEntries l1) (sortEntries l2) :=
    (perm_sortEntries l1).trans (hp.trans (perm_sortEntries l2).symm)
  have hn1 : ((sortEntries l1).map Prod.fst).Nodup :=
    ((perm_sortEntries l1).map Prod.fst).nodup_iff.mpr hn
  have hn2 : ((sortEntries l2).map Prod.fst).Nodup :=
    (hperm.map Prod.fst).nodup_iff.mp hn1
  exact List.eq_of_perm_of_sorted hperm
    (pairwise_keyLT (pairwise_sortEntries l1) hn1)
    (pairwise_keyLT (pairwise_sortEntries l2) hn2)

/-- Claim C6: for every configuration tree X, GenerateDiff(X, X) returns an
empty sequence of DiffRecords. -/
theorem GenerateDiff_self_empty (X : ConfigTree) : GenerateDiff X X = [] := by
  unfold GenerateDiff
  exact diffEntries_self [] (sortEntries X)

/-- Claim C7: GenerateDiff is deterministic — its output is a single, stable
sequence in sorted key order. In the Go source the inputs are unordered maps,
so identical inputs means equal maps regardless of entry order: for any two
representations of the same stored map (a key-permutation with no duplicate
keys) and likewise for the incoming map, the output sequences are
identical. -/
theorem GenerateDiff_deterministic (stored stored' incoming incoming' : ConfigTree)
    (hs : List.Perm stored stored') (hsn : (stored.map Prod.fst).Nodup)
    (hi : List.Perm incoming incoming') (hin : (incoming.map Prod.fst).Nodup) :
    GenerateDiff stored incoming = GenerateDiff stored' incoming' := by
  unfold GenerateDiff
  rw [sortEntries_eq_of_perm hs hsn, sortEntries_eq_of_perm hi hin]

/-- Witness for C7 at concrete inputs: the same two-key map presented in two
different entry orders produces the identical diff against the same
incoming map. -/
theorem GenerateDiff_deterministic_witness :
    GenerateDiff [("b", Value.vnull), ("a", Value.vnull)] [("a", Value.vint 1)] =
      GenerateDiff [("a", Value.vnull), ("b", Value.vnull)] [("a", Value.vint 1)] :=
  GenerateDiff_deterministic _ _ _ _
    (List.Perm.swap ("a", Value.vnull) ("b", Value.vnull) [])
    (by decide) (List.Perm.refl _) (by decide)

/-- The stored configuration of the spec's scenario:
stored = spec.network.cidr = "10.0.0.0/16". -/
def storedScenario : ConfigTree :=
  [("spec", .vmap [("network", .vmap [("cidr", .vstr "10.0.0.0/16")])])]

/-- The incoming configuration of the spec's scenario:
incoming = spec.network.cidr = "10.1.0.0/16". -/
def incomingScenario : ConfigTree :=
  [("spec", .vmap [("network", .vmap [("cidr", .vstr "10.1.0.0/16")])])]

/-- Claim C2: a violation is reported exactly for each diff whose path the
pattern prefix-matches (equal or descendant, wildcard indices allowed); no
match for any diff yields the empty sequence; and on the spec's scenario
(stored spec.network.cidr = 10.0.0.0/16, incoming 10.1.0.0/16, immutable
path spec.network) exactly one ViolationError at spec.network.cidr is
produced. -/
theorem AssertImmutableViolations_spec :
    (∀ (diffs : List DiffRecord) (pats : List PathPattern) (v : ViolationError),
        v ∈ AssertImmutableViolations diffs pats ↔
          ∃ d ∈ diffs, (∃ pat ∈ pats, matchesPattern pat d.path = true) ∧
            v = ⟨d.path, d.oldValue, d.newValue⟩) ∧
    (∀ (diffs : List DiffRecord) (pats : List PathPattern),
        (∀ d ∈ diffs, ∀ pat ∈ pats, matchesPattern pat d.path = false) →
        AssertImmutableViolations diffs pats = []) ∧
    AssertImmutableViolations (GenerateDiff storedScenario incomingScenario)
        [[PatSeg.key "spec", PatSeg.key "network"]] =
      [⟨[Seg.key "spec", Seg.key "network", Seg.key "cidr"],
        some (Value.vstr "10.0.0.0/16"), some (Value.vstr "10.1.0.0/16")⟩] := by
  refine ⟨?_, ?_, ?_⟩
  · intro diffs pats v
    simp only [AssertImmutableViolations, List.mem_flatMap, List.mem_map, List.mem_filter]
    constructor
    · rintro ⟨d, hd, pat, ⟨hp, hm⟩, rfl⟩
      exact ⟨d, hd, ⟨pat, hp, hm⟩, rfl⟩
    · rintro ⟨d, hd, ⟨pat, hp, hm⟩, rfl⟩
      exact ⟨d, hd, pat, ⟨hp, hm⟩, rfl⟩
  · intro diffs pats h
    unfold AssertImmutableViolations
    rw [List.flatMap_eq_nil_iff]
    intro d hd
    rw [List.map_eq_nil_iff, List.filter_eq_nil_iff]
    intro pat hp
    simp [h d hd pat hp]
  · simp [storedScenario, incomingScenario, GenerateDiff, sortEntries, insertEntry,
      diffEntries, diffValue, beqValue, AssertImmutableViolations, matchesPattern, matchSeg]

/-- Witness for C2's universally quantified parts at concrete inputs: a diff
at path a does not match the pattern b, so the checker returns the empty
sequence there, and membership in the scenario's output is as characterized. -/
theorem AssertImmutableViolations_spec_witness :
    AssertImmutableViolations [⟨[Seg.key "a"], none, some Value.vnull, DiffKind.added⟩]
        [[PatSeg.key "b"]] = [] :=
  AssertImmutableViolations_spec.2.1 _ _ (by decide)

/-- Claim C8: `GetImmutables` on a category not declared in the loaded rule
schema returns the empty set of path patterns; its type returns no error at
all. -/
theorem GetImmutables_unknown_category_empty (r : RuleSource) (category : String)
    (h : category ∉ r.immutables.map Prod.fst) : r.GetImmutables category = [] := by
  unfold RuleSource.GetImmutables
  have hnone : ∀ l : List (String × List PathPattern),
      category ∉ l.map Prod.fst → lookupCategory category l = none := by
    intro l
    induction l with
    | nil => intro _; rfl
    | cons e t ih =>
        intro hmem
        simp only [List.map_cons, List.mem_cons] at hmem
        push_neg at hmem
        obtain ⟨hne, hrest⟩ := hmem
        obtain ⟨c, pats⟩ := e
        simp only [lookupCategory, ih hrest]
        exact if_neg fun hc => hne hc.symm
  rw [hnone r.immutables h]
  rfl

/-- Witness for C8: a rule source declaring immutables only for the three
standard categories yields the empty pattern set for the category
"nonexistent". -/
theorem GetImmutables_unknown_category_empty_witness :
    ("nonexistent" ∉
        (["infrastructure", "kubernetes", "distribution"].map
          (fun c => (c, ([[PatSeg.key "spec"]] : List PathPattern)))).map Prod.fst) ∧
    RuleSource.GetImmutables
        ⟨["infrastructure", "kubernetes", "distribution"].map
          (fun c => (c, [[PatSeg.key "spec"]]))⟩ "nonexistent" = [] :=
  ⟨by decide, GetImmutables_unknown_category_empty _ "nonexistent" (by decide)⟩

/-- The aggregate of the violations collected by the three per-category
immutability checks run by `CheckStateDiffs`. -/
def aggregateViolations (storedCfg newCfg : ConfigTree) (r : RuleSource) : List ViolationError :=
  AssertImmutableViolations (GenerateDiff storedCfg newCfg) (r.GetImmutables "infrastructure") ++
  AssertImmutableViolations (GenerateDiff storedCfg newCfg) (r.GetImmutables "kubernetes") ++
  AssertImmutableViolations (GenerateDiff storedCfg newCfg) (r.GetImmutables "distribution")

/-- Claim C1: with the stored and incoming configurations loaded,
`CheckStateDiffs` invokes the immutability checker exactly once per category
("infrastructure", "kubernetes", "distribution"), and fails if and only if
the aggregate of all collected violations is non-empty, in which case the
single reported error wraps the whole aggregate (every violation, not just
the first); on an empty aggregate it succeeds. -/
theorem CheckStateDiffs_aggregate (d : StateDiffsDeps) (storedStr : String)
    (storedCfg newCfg : ConfigTree) (r : RuleSource)
    (h1 : d.getConfig = .ok storedStr)
    (h2 : d.unmarshalStored storedStr = .ok storedCfg)
    (h3 : d.readNewConfig = .ok newCfg)
    (h4 : d.rulesBuilder = .ok r) :
    ((CheckStateDiffs d).2.count (.assertImmutable "infrastructure") = 1 ∧
     (CheckStateDiffs d).2.count (.assertImmutable "kubernetes") = 1 ∧
     (CheckStateDiffs d).2.count (.assertImmutable "distribution") = 1) ∧
    ((CheckStateDiffs d).1 = .ok () ↔ aggregateViolations storedCfg newCfg r = []) ∧
    (aggregateViolations storedCfg newCfg r ≠ [] →
      (CheckStateDiffs d).1 = .error (.immutable (aggregateViolations storedCfg newCfg r))) := by
  have hred : CheckStateDiffs d =
      (if (aggregateViolations storedCfg newCfg r).isEmpty then
        (.ok (),
          [.getConfig, .unmarshalStored, .readNewConfig, .generateDiff, .rulesBuilder,
           .assertImmutable "infrastructure", .assertImmutable "kubernetes",
           .assertImmutable "distribution"])
      else
        (.error (.immutable (aggregateViolations storedCfg newCfg r)),
          [.getConfig, .unmarshalStored, .readNewConfig, .generateDiff, .rulesBuilder,
           .assertImmutable "infrastructure", .assertImmutable "kubernetes",
           .assertImmutable "distribution"])) := by
    simp only [CheckStateDiffs, aggregateViolations, h1, h2, h3, h4]
  by_cases he : aggregateViolations storedCfg newCfg r = []
  · rw [hred, if_pos (by simp [he])]
    exact ⟨⟨rfl, rfl, rfl⟩, by simp [he], fun h => absurd he h⟩
  · rw [hred, if_neg (by simp [he])]
    exact ⟨⟨rfl, rfl, rfl⟩, by simp [he], fun _ => rfl⟩

/-- A rule source declaring spec.network immutable for the kubernetes
category only. -/
def ruleSourceExample : RuleSource :=
  ⟨[("kubernetes", [[PatSeg.key "spec", PatSeg.key "network"]])]⟩

/-- Collaborator outcomes where every load succeeds, the stored and incoming
configurations are the spec scenario's, and the rules builder returns
`ruleSourceExample`. -/
def stateDiffsDepsExample : StateDiffsDeps :=
  { getConfig := .ok "stored-yaml"
    unmarshalStored := fun _ => .ok storedScenario
    readNewConfig := .ok incomingScenario
    rulesBuilder := .ok ruleSourceExample }

/-- Witness for C1 at concrete collaborator outcomes. -/
theorem CheckStateDiffs_aggregate_witness :
    ((CheckStateDiffs stateDiffsDepsExample).2.count (.assertImmutable "infrastructure") = 1 ∧
     (CheckStateDiffs stateDiffsDepsExample).2.count (.assertImmutable "kubernetes") = 1 ∧
     (CheckStateDiffs stateDiffsDepsExample).2.count (.assertImmutable "distribution") = 1) ∧
    ((CheckStateDiffs stateDiffsDepsExample).1 = .ok () ↔
      aggregateViolations storedScenario incomingScenario ruleSourceExample = []) ∧
    (aggregateViolations storedScenario incomingScenario ruleSourceExample ≠ [] →
      (CheckStateDiffs stateDiffsDepsExample).1 =
        .error (.immutable (aggregateViolations storedScenario incomingScenario ruleSourceExample))) :=
  CheckStateDiffs_aggregate stateDiffsDepsExample "stored-yaml" storedScenario incomingScenario
    ruleSourceExample rfl rfl rfl rfl

/-- Claim C4 counterexample: with every load succeeding but the rules-builder
construction failing (rule schema file absent), `CheckStateDiffs` does abort
with an error, but the diff engine has already run by then — refuting the
claim that the orchestrator aborts before any diff runs. -/
def ruleSchemaAbsentDeps : StateDiffsDeps :=
  { getConfig := .ok "stored-yaml"
    unmarshalStored := fun _ => .ok storedScenario
    readNewConfig := .ok incomingScenario
    rulesBuilder := .error (.msg "rule schema file absent") }

/-- Counterexample for C4: when the rule schema file is absent the
orchestrator aborts, but only after the diff has been generated: the
generateDiff step is in the performed-steps trace. -/
theorem CheckStateDiffs_diff_runs_before_rules :
    (CheckStateDiffs ruleSchemaAbsentDeps).1 =
      .error (.wrap "error while creating rules builder" (.msg "rule schema file absent")) ∧
    Step.generateDiff ∈ (CheckStateDiffs ruleSchemaAbsentDeps).2 := by
  constructor
  · rfl
  · show Step.generateDiff ∈
      [Step.getConfig, Step.unmarshalStored, Step.readNewConfig, Step.generateDiff,
       Step.rulesBuilder]
    decide

/-- Claim C4 (amended): each load error — stored config unreadable, stored
config unparseable, incoming config unreadable, rule schema unreadable or
malformed — is fatal and aborts `CheckStateDiffs` immediately with no retry
(the trace stops at the failing step and contains it once); when the rule
schema is absent the rules-builder construction failure aborts the check
after the diff is generated but before any immutability check runs. -/
theorem CheckStateDiffs_load_errors_fatal (d : StateDiffsDeps) :
    (∀ e, d.getConfig = .error e →
      CheckStateDiffs d =
        (.error (.wrap "error while getting current cluster config" e), [.getConfig])) ∧
    (∀ s e, d.getConfig = .ok s → d.unmarshalStored s = .error e →
      CheckStateDiffs d =
        (.error (.wrap "error while unmarshalling config file" e),
          [.getConfig, .unmarshalStored])) ∧
    (∀ s storedCfg e, d.getConfig = .ok s → d.unmarshalStored s = .ok storedCfg →
      d.readNewConfig = .error e →
      CheckStateDiffs d =
        (.error (.wrap "error while reading config file" e),
          [.getConfig, .unmarshalStored, .readNewConfig])) ∧
    (∀ s storedCfg newCfg e, d.getConfig = .ok s → d.unmarshalStored s = .ok storedCfg →
      d.readNewConfig = .ok newCfg → d.rulesBuilder = .error e →
      (CheckStateDiffs d).1 = .error (.wrap "error while creating rules builder" e) ∧
      (∀ c, Step.assertImmutable c ∉ (CheckStateDiffs d).2)) := by
  refine ⟨?_, ?_, ?_, ?_⟩
  · intro e h1
    simp only [CheckStateDiffs, h1]
  · intro s e h1 h2
    simp only [CheckStateDiffs, h1, h2]
  · intro s storedCfg e h1 h2 h3
    simp only [CheckStateDiffs, h1, h2, h3]
  · intro s storedCfg newCfg e h1 h2 h3 h4
    have hred : CheckStateDiffs d =
        (.error (.wrap "error while creating rules builder" e),
          [.getConfig, .unmarshalStored, .readNewConfig, .generateDiff, .rulesBuilder]) := by
      simp only [CheckStateDiffs, h1, h2, h3, h4]
    rw [hred]
    refine ⟨rfl, fun c => ?_⟩
    simp

/-- Witness for C4's amended theorem at concrete collaborator outcomes. -/
theorem CheckStateDiffs_load_errors_fatal_witness :
    (CheckStateDiffs ruleSchemaAbsentDeps).1 =
      .error (.wrap "error while creating rules builder" (.msg "rule schema file absent")) ∧
    ∀ c, Step.assertImmutable c ∉ (CheckStateDiffs ruleSchemaAbsentDeps).2 :=
  (CheckStateDiffs_load_errors_fatal ruleSchemaAbsentDeps).2.2.2 "stored-yaml" storedScenario
    incomingScenario (.msg "rule schema file absent") rfl rfl rfl rfl

/-- Claim C3: after terraform init succeeds, when the terraform state-show
call reports no existing cluster resource (it returns an error), `Exec`
returns success at once, and neither the reachability check (kubectl
version) nor the diff engine nor any immutability check is invoked. -/
theorem Exec_firstApply_fastPath (d : ExecDeps) (e : GoError)
    (h1 : d.createFolder = .ok ()) (h2 : d.copyFromTemplate = .ok ())
    (h3 : d.createFolderStructure = .ok ()) (h4 : d.tfInit = .ok ())
    (h5 : d.stateShow = .error e) :
    (Exec d).1 = .ok () ∧
    Step.kubeVersion ∉ (Exec d).2 ∧
    Step.generateDiff ∉ (Exec d).2 ∧
    ∀ c, Step.assertImmutable c ∉ (Exec d).2 := by
  have hred : Exec d =
      (.ok (), [.createFolder, .copyFromTemplate, .createFolderStructure, .tfInit, .stateShow]) := by
    simp only [Exec, h1, h2, h3, h4, h5]
  rw [hred]
  refine ⟨rfl, by simp, by simp, fun c => by simp⟩

/-- Collaborator outcomes where every phase-preparation step succeeds and the
state-show call errors with "no state". -/
def firstApplyDeps : ExecDeps :=
  { createFolder := .ok ()
    copyFromTemplate := .ok ()
    createFolderStructure := .ok ()
    tfInit := .ok ()
    stateShow := .error (.msg "no state")
    kubeVersion := .ok "v1.27"
    stateDiffs := stateDiffsDepsExample }

/-- Witness for C3 at concrete collaborator outcomes. -/
theorem Exec_firstApply_fastPath_witness :
    (Exec firstApplyDeps).1 = .ok () ∧
    Step.kubeVersion ∉ (Exec firstApplyDeps).2 ∧
    Step.generateDiff ∉ (Exec firstApplyDeps).2 ∧
    ∀ c, Step.assertImmutable c ∉ (Exec firstApplyDeps).2 :=
  Exec_firstApply_fastPath firstApplyDeps (.msg "no state") rfl rfl rfl rfl rfl

/-- Claim C5: when a cluster resource exists in the remote state (state-show
succeeds) and the reachability check fails, `Exec` fails with the
unreachable-cluster error and stops before any diffing: the config loads,
the diff generation and every immutability check are never invoked. -/
theorem Exec_unreachable_fatal (d : ExecDeps) (s : String) (e : GoError)
    (h1 : d.createFolder = .ok ()) (h2 : d.copyFromTemplate = .ok ())
    (h3 : d.createFolderStructure = .ok ()) (h4 : d.tfInit = .ok ())
    (h5 : d.stateShow = .ok s) (h6 : d.kubeVersion = .error e) :
    (Exec d).1 =
      .error (.wrap "cluster is unreachable, make sure you have access to the cluster" e) ∧
    Step.getConfig ∉ (Exec d).2 ∧
    Step.generateDiff ∉ (Exec d).2 ∧
    ∀ c, Step.assertImmutable c ∉ (Exec d).2 := by
  have hred : Exec d =
      (.error (.wrap "cluster is unreachable, make sure you have access to the cluster" e),
        [.createFolder, .copyFromTemplate, .createFolderStructure, .tfInit, .stateShow,
         .kubeVersion]) := by
    simp only [Exec, h1, h2, h3, h4, h5, h6]
  rw [hred]
  refine ⟨rfl, by simp, by simp, fun c => by simp⟩

/-- Collaborator outcomes where the cluster exists remotely but the kubectl
reachability check fails. -/
def unreachableDeps : ExecDeps :=
  { createFolder := .ok ()
    copyFromTemplate := .ok ()
    createFolderStructure := .ok ()
    tfInit := .ok ()
    stateShow := .ok "data.aws_eks_cluster.fury"
    kubeVersion := .error (.msg "connection refused")
    stateDiffs := stateDiffsDepsExample }

/-- Witness for C5 at concrete collaborator outcomes. -/
theorem Exec_unreachable_fatal_witness :
    (Exec unreachableDeps).1 =
      .error (.wrap "cluster is unreachable, make sure you have access to the cluster"
        (.msg "connection refused")) ∧
    Step.getConfig ∉ (Exec unreachableDeps).2 ∧
    Step.generateDiff ∉ (Exec unreachableDeps).2 ∧
    ∀ c, Step.assertImmutable c ∉ (Exec unreachableDeps).2 :=
  Exec_unreachable_fatal unreachableDeps "data.aws_eks_cluster.fury" (.msg "connection refused")
    rfl rfl rfl rfl rfl rfl

/-- Claim C9: any error from the terraform state-show call — whatever its
cause — makes `Exec` return success and skip the reachability check and all
diff and immutability steps; the result is the same for every error value,
so the error's cause is never inspected. -/
theorem Exec_stateShow_error_ignored (d : ExecDeps)
    (h1 : d.createFolder = .ok ()) (h2 : d.copyFromTemplate = .ok ())
    (h3 : d.createFolderStructure = .ok ()) (h4 : d.tfInit = .ok ()) :
    ∀ e e' : GoError,
      (Exec { d with stateShow := .error e }).1 = .ok () ∧
      Step.kubeVersion ∉ (Exec { d with stateShow := .error e }).2 ∧
      Step.generateDiff ∉ (Exec { d with stateShow := .error e }).2 ∧
      (∀ c, Step.assertImmutable c ∉ (Exec { d with stateShow := .error e }).2) ∧
      Exec { d with stateShow := .error e } = Exec { d with stateShow := .error e' } := by
  intro e e'
  have hred : ∀ e0 : GoError, Exec { d with stateShow := .error e0 } =
      (.ok (), [.createFolder, .copyFromTemplate, .createFolderStructure, .tfInit, .stateShow]) := by
    intro e0
    simp only [Exec, h1, h2, h3, h4]
  rw [hred e, hred e']
  exact ⟨rfl, by simp, by simp, fun c => by simp, rfl⟩

/-- Witness for C9 at concrete collaborator outcomes: two unrelated
state-show failures produce the identical successful outcome. -/
theorem Exec_stateShow_error_ignored_witness :
    (Exec { firstApplyDeps with stateShow := .error (.msg "access denied") }).1 = .ok () ∧
    Step.kubeVersion ∉
      (Exec { firstApplyDeps with stateShow := .error (.msg "access denied") }).2 ∧
    Step.generateDiff ∉
      (Exec { firstApplyDeps with stateShow := .error (.msg "access denied") }).2 ∧
    (∀ c, Step.assertImmutable c ∉
      (Exec { firstApplyDeps with stateShow := .error (.msg "access denied") }).2) ∧
    Exec { firstApplyDeps with stateShow := .error (.msg "access denied") } =
      Exec { firstApplyDeps with stateShow := .error (.msg "cluster does not exist") } :=
  Exec_stateShow_error_ignored firstApplyDeps rfl rfl rfl rfl
    (.msg "access denied") (.msg "cluster does not exist")

/-- The base configuration decoded from a well-formed YAML document whose
kind is Cluster and which has no spec key at all: the `Spec` interface field
stays nil. -/
def clusterNoSpecConfig : Configuration :=
  { kind := "Cluster", spec := .vnil, provisioner := "" }

/-- The base configuration decoded from a well-formed YAML document whose
kind is Bootstrap and whose spec is a scalar rather than a mapping. -/
def bootstrapScalarSpecConfig : Configuration :=
  { kind := "Bootstrap", spec := .vstr "not-a-mapping", provisioner := "" }

/-- External-call outcomes where the file read and both YAML calls succeed,
decoding to the Cluster document without a spec. -/
def parseDepsClusterNoSpec : ParseDeps :=
  { readFile := .ok ()
    unmarshalConfig := .ok clusterNoSpecConfig
    parser := { marshalSpec := .ok (), unmarshalSpec := .ok () } }

/-- External-call outcomes decoding to the Bootstrap document with a scalar
spec. -/
def parseDepsBootstrapScalarSpec : ParseDeps :=
  { readFile := .ok ()
    unmarshalConfig := .ok bootstrapScalarSpecConfig
    parser := { marshalSpec := .ok (), unmarshalSpec := .ok () } }

/-- Claim C10: on a well-formed YAML input whose Kind is Cluster (resp.
Bootstrap) but whose spec is absent (resp. not a mapping), `Parse` panics on
the unchecked type assertion instead of returning an error. -/
theorem Parse_panics_on_bad_spec :
    Parse parseDepsClusterNoSpec = .panics "interface conversion" ∧
    Parse parseDepsBootstrapScalarSpec = .panics "interface conversion" ∧
    (∀ s, Parse parseDepsClusterNoSpec ≠ .err s) ∧
    (∀ s, Parse parseDepsBootstrapScalarSpec ≠ .err s) := by
  refine ⟨rfl, rfl, fun s h => ?_, fun s h => ?_⟩
  · exact ParseOutcome.noConfusion h
  · exact ParseOutcome.noConfusion h

end Furyctl
